import Mathlib

/-!
Shallow embedding of the PixelCover game (src/App.tsx and the Spotify
gateway src/unnamed/part_001) for checking the natural-language spec.

Modelling conventions:
  * JavaScript strings are Lean `String`s; the pure text-processing
    pipeline (`normalizeString`, `trim`) works on `List Char`.
    `Char.toLower`, `Char.isAlphanum` and `Char.isWhitespace` model the
    JS `toLowerCase`, the `\p{L}\p{N}` character class and the `trim`
    whitespace class; they agree on ASCII, which covers every concrete
    string appearing in the claims.
  * JavaScript numbers holding the score are modelled as `ℚ` (all values
    arising here are small integers or half-integers, which IEEE doubles
    represent exactly); `Math.floor` is `Int.floor`, `Math.max` is `max`.
  * Counters (`guessesUsed`, `pixelFactor`, `timeLeft`) are `Nat`; the
    one subtraction `prev - step - 1` sits under `Math.max(4, _)`, where
    truncated `Nat` subtraction and JS subtraction agree.
  * React `useState` setters are modelled as sequential record updates;
    network nondeterminism (the fetched pool, `Math.random`) enters as
    explicit parameters of `loadRound`, and a `gatewayError` flag models
    a gateway call that throws.
-/

namespace PixelCover

/-- Game status enumeration from src/App.tsx line 16. -/
inductive GameStatus
  | MENU
  | PLAYING
  | WON
  | LOST
  | ALL_CLEARED
  deriving DecidableEq, Repr

/-- Game mode enumeration from src/App.tsx line 17. -/
inductive GameMode
  | SPECIFIC
  | RANDOM
  deriving DecidableEq, Repr

/-- Difficulty enumeration from src/App.tsx line 18. -/
inductive Difficulty
  | EASY
  | MEDIUM
  | HARD
  deriving DecidableEq, Repr

/-- Hint level enumeration from src/App.tsx line 19. -/
inductive HintLevel
  | NONE
  | MASKED
  | FIRST_WORD
  deriving DecidableEq, Repr

/-- Loss reason union type from src/App.tsx line 48. -/
inductive LossReason
  | SKIP
  | TIME_UP
  | OUT_OF_GUESSES
  deriving DecidableEq, Repr

/-- Album kind from src/App.tsx line 13 and the gateway album shape. -/
inductive AlbumKind
  | album
  | single
  | compilation
  deriving DecidableEq, Repr

/-- Constant MAX_GUESSES from src/App.tsx line 21. -/
def MAX_GUESSES : Nat := 4

/-- Constant STARTING_PIXELATION from src/App.tsx line 22. -/
def STARTING_PIXELATION : Nat := 35

/-- Per-difficulty timer allotment, TIMER_SETTINGS from src/App.tsx lines 23-27. -/
def TIMER_SETTINGS : Difficulty → Nat
  | .EASY => 30
  | .MEDIUM => 10
  | .HARD => 5

/-- Cover image record from the gateway (src/unnamed/part_001, SpotifyImage). -/
structure SpotifyImage where
  url : String
  deriving DecidableEq, Repr

/-- Gateway album record (src/unnamed/part_001, SpotifyAlbum). -/
structure SpotifyAlbum where
  id : String
  name : String
  images : List SpotifyImage
  release_date : String
  spotifyUrl : String
  album_type : AlbumKind
  deriving DecidableEq, Repr

/-- Gateway artist record (src/unnamed/part_001, SpotifyArtist). -/
structure SpotifyArtist where
  id : String
  name : String
  deriving DecidableEq, Repr

/-- The app-side target record, AlbumData from src/App.tsx lines 6-14. -/
structure AlbumData where
  id : String
  artistName : String
  albumName : String
  coverUrl : String
  releaseDate : String
  spotifyUrl : String
  kind : AlbumKind
  deriving DecidableEq, Repr

/-- The complete mutable component state of App (src/App.tsx lines 30-61). -/
structure State where
  status : GameStatus
  gameMode : GameMode
  difficulty : Difficulty
  loading : Bool
  error : Option String
  toastMessage : Option String
  searchInput : String
  artistCandidates : List SpotifyArtist
  currentArtist : Option SpotifyArtist
  showQuitConfirm : Bool
  targetAlbum : Option AlbumData
  guessInput : String
  guessesUsed : Nat
  pixelFactor : Nat
  lastWrongGuess : Option String
  playedIds : List String
  lossReason : Option LossReason
  hintLevel : HintLevel
  enableTimer : Bool
  timeLeft : Nat
  score : ℚ
  deriving DecidableEq, Repr

/-- JS toLowerCase, modelled characterwise (ASCII-faithful). -/
def jsToLowerCase (s : List Char) : List Char := s.map Char.toLower

/-- JS split(sep)[0]: the prefix of the string before the first
occurrence of the separator (the whole string when absent). -/
def jsSplitHead (sep : Char) (s : List Char) : List Char := s.takeWhile (· ≠ sep)

/-- JS replace of every character outside the Unicode letter/number
classes by nothing, i.e. keep only letters and digits (ASCII-faithful). -/
def jsStripNonAlnum (s : List Char) : List Char := s.filter Char.isAlphanum

/-- The guess normalizer, normalizeString from src/App.tsx lines 94-100:
lowercase, then split at the first left parenthesis, then split at the
first hyphen, then strip every non-alphanumeric character. -/
def normalizeString (s : String) : List Char :=
  jsStripNonAlnum (jsSplitHead '-' (jsSplitHead '(' (jsToLowerCase s.toList)))

/-- JS String.trim, dropping leading and trailing whitespace. -/
def jsTrim (s : String) : List Char :=
  ((s.toList.dropWhile Char.isWhitespace).reverse.dropWhile Char.isWhitespace).reverse

/-- Difficulty multiplier computed inline in handleWin (src/App.tsx line 256). -/
def difficultyMulti : Difficulty → ℚ
  | .EASY => 1
  | .MEDIUM => 3 / 2
  | .HARD => 2

/-- Toast text used by handleSkip on insufficient score (src/App.tsx line 268). -/
def skipToast : String := "Not enough XP! Need 50 XP to skip."

/-- Toast text used by handleHint on insufficient score (src/App.tsx line 286). -/
def hintToast : String := "Not enough XP! Need 25 XP for a hint."

/-- Error message thrown by loadRound when no usable item exists (src/App.tsx line 168). -/
def noMusicMsg : String := "No music found for this artist"

/-- Error message set by handleRandomStart's catch (src/App.tsx line 142). -/
def randomFailMsg : String := "Failed to fetch random artist. Try again."

/-- Inline error for an empty artist search (src/App.tsx line 111). -/
def noArtistsMsg : String := "No artists found"

/-- Handler handleWin from src/App.tsx lines 253-264: full reveal, status
WON, and the award — base max(100, 1000 - 200*guessesUsed), plus
timeLeft*10 when the timer is on with time remaining, the sum scaled by
the difficulty multiplier and the resulting score floored. -/
def handleWin (s : State) : State :=
  let basePoints : ℤ := max 100 (1000 - (s.guessesUsed : ℤ) * 200)
  let withBonus : ℤ :=
    if s.enableTimer = true ∧ 0 < s.timeLeft then basePoints + (s.timeLeft : ℤ) * 10
    else basePoints
  { s with
      pixelFactor := 1
      status := .WON
      score := ((Int.floor (s.score + (withBonus : ℚ) * difficultyMulti s.difficulty) : ℤ) : ℚ) }

/-- Handler handleWrongGuess from src/App.tsx lines 232-251: consume a
guess, record the wrong text, reset the timer when enabled; on the
MAX_GUESSES-th wrong guess reveal and lose, otherwise coarsen the
pixel factor by floor(STARTING_PIXELATION / MAX_GUESSES) + 1 with floor 4. -/
def handleWrongGuess (s : State) : State :=
  let newUsed := s.guessesUsed + 1
  let s1 := { s with
      guessesUsed := newUsed
      lastWrongGuess := some s.guessInput
      guessInput := ""
      timeLeft := if s.enableTimer then TIMER_SETTINGS s.difficulty else s.timeLeft }
  if MAX_GUESSES ≤ newUsed then
    { s1 with pixelFactor := 1, lossReason := some .OUT_OF_GUESSES, status := .LOST }
  else
    let step := STARTING_PIXELATION / MAX_GUESSES
    { s1 with pixelFactor := max 4 (s1.pixelFactor - step - 1) }

/-- Handler submitGuess from src/App.tsx lines 215-230: no-op without a
target or with blank input, no-op when the guess normalizes to the empty
token while the target does not, win on normalized equality, otherwise a
wrong guess. -/
def submitGuess (s : State) : State :=
  match s.targetAlbum with
  | none => s
  | some target =>
    if jsTrim s.guessInput = [] then s
    else
      let normalizedGuess := normalizeString s.guessInput
      let normalizedTarget := normalizeString target.albumName
      if normalizedGuess = [] ∧ normalizedTarget ≠ [] then s
      else if normalizedGuess = normalizedTarget then handleWin s
      else handleWrongGuess s

/-- Handler handleSkip from src/App.tsx lines 266-276: rejected with a
toast below 50 XP; otherwise reveal, lose with reason SKIP, and charge 50. -/
def handleSkip (s : State) : State :=
  if s.score < 50 then { s with toastMessage := some skipToast }
  else
    { s with
        pixelFactor := 1
        lossReason := some .SKIP
        status := .LOST
        score := max 0 (s.score - 50) }

/-- Handler handleTimeUp from src/App.tsx lines 278-282. -/
def handleTimeUp (s : State) : State :=
  { s with pixelFactor := 1, lossReason := some .TIME_UP, status := .LOST }

/-- Handler handleHint from src/App.tsx lines 284-293: rejected with a
toast below 25 XP; otherwise advance the hint level one step (no advance
at FIRST_WORD) and charge 25 unconditionally. -/
def handleHint (s : State) : State :=
  if s.score < 25 then { s with toastMessage := some hintToast }
  else
    let s1 :=
      match s.hintLevel with
      | .NONE => { s with hintLevel := HintLevel.MASKED }
      | .MASKED => { s with hintLevel := HintLevel.FIRST_WORD }
      | .FIRST_WORD => s
    { s1 with score := max 0 (s1.score - 25) }

/-- The hint button as rendered (src/App.tsx lines 660-667): it invokes
handleHint but carries disabled when hintLevel is FIRST_WORD, so the
click is then inert. -/
def hintButton (s : State) : State :=
  if s.hintLevel = HintLevel.FIRST_WORD then s else handleHint s

/-- Handler confirmQuit from src/App.tsx lines 346-353 (forceQuitToMenu,
lines 337-344, performs the same updates): back to MENU, clearing search
state, the artist and the played set — but not the target album. -/
def confirmQuit (s : State) : State :=
  { s with
      showQuitConfirm := false
      status := .MENU
      searchInput := ""
      artistCandidates := []
      currentArtist := none
      playedIds := [] }

/-- The gateway pick, getRandomAlbumForArtist from src/unnamed/part_001
lines 101-131, after the pool for the artist and difficulty has been
fetched: null when the pool is empty or fully excluded, otherwise a
uniformly random available item. The fetched pool and the random draw
are parameters (network and Math.random nondeterminism). -/
def getRandomAlbumForArtist (items : List SpotifyAlbum) (excludeIds : List String)
    (randomPick : Nat) : Option SpotifyAlbum :=
  if items = [] then none
  else
    let availableItems := items.filter (fun it => ¬ excludeIds.contains it.id)
    if availableItems = [] then none
    else availableItems.get? (randomPick % availableItems.length)

/-- Tail of loadRound (src/App.tsx lines 167-195) once an item is in
hand: throw to MENU when the cover image is missing or empty, otherwise
install the target, append its id to the played set, reset the round
progress, arm the timer if enabled, and enter PLAYING. -/
def finishLoad (s : State) (artist : SpotifyArtist) (diff : Difficulty)
    (album : SpotifyAlbum) : State :=
  match album.images.head? with
  | none => { s with error := some noMusicMsg, status := .MENU, loading := false }
  | some img =>
    if img.url = "" then { s with error := some noMusicMsg, status := .MENU, loading := false }
    else
      { s with
          targetAlbum := some
            { id := album.id
              artistName := artist.name
              albumName := album.name
              coverUrl := img.url
              releaseDate := album.release_date
              spotifyUrl := album.spotifyUrl
              kind := album.album_type }
          playedIds := s.playedIds ++ [album.id]
          guessesUsed := 0
          pixelFactor := STARTING_PIXELATION
          guessInput := ""
          lastWrongGuess := none
          hintLevel := HintLevel.NONE
          timeLeft := if s.enableTimer then TIMER_SETTINGS diff else 0
          status := .PLAYING
          loading := false }

/-- Handler loadRound from src/App.tsx lines 147-203. `items` is the
pool the gateway fetched for this artist and difficulty, `r1` and `r2`
the two possible random draws, and `gatewayError` models the gateway
call throwing (caught like every other failure: error message, MENU). -/
def loadRound (s : State) (artist : SpotifyArtist) (currentPlayedIds : List String)
    (diff : Difficulty) (items : List SpotifyAlbum) (r1 r2 : Nat)
    (gatewayError : Bool) : State :=
  let s := { s with loading := true, error := none, artistCandidates := [], lossReason := none }
  if gatewayError then { s with error := some noMusicMsg, status := .MENU, loading := false }
  else
    match getRandomAlbumForArtist items currentPlayedIds r1 with
    | some album => finishLoad s artist diff album
    | none =>
      if s.gameMode = GameMode.SPECIFIC then { s with status := .ALL_CLEARED, loading := false }
      else
        let s := { s with playedIds := [] }
        match getRandomAlbumForArtist items [] r2 with
        | some album => finishLoad s artist diff album
        | none => { s with error := some noMusicMsg, status := .MENU, loading := false }

/-- Handler nextRound from src/App.tsx lines 205-213: in RANDOM mode a
fresh random artist is fetched and a round loaded for it; in SPECIFIC
mode another round loads for the current artist carrying the exclusion
set; with no current artist, back to MENU. -/
def nextRound (s : State) (artist : SpotifyArtist) (items : List SpotifyAlbum)
    (r1 r2 : Nat) (gatewayError : Bool) : State :=
  match s.gameMode with
  | .RANDOM =>
      loadRound { s with currentArtist := some artist, playedIds := [] }
        artist [] s.difficulty items r1 r2 gatewayError
  | .SPECIFIC =>
      match s.currentArtist with
      | some a => loadRound s a s.playedIds s.difficulty items r1 r2 gatewayError
      | none => { s with status := .MENU }

/-- The initial component state (src/App.tsx lines 30-61); the persisted
score read back from localStorage is the parameter. -/
def init (savedScore : Nat) : State :=
  { status := .MENU
    gameMode := .SPECIFIC
    difficulty := .MEDIUM
    loading := false
    error := none
    toastMessage := none
    searchInput := ""
    artistCandidates := []
    currentArtist := none
    showQuitConfirm := false
    targetAlbum := none
    guessInput := ""
    guessesUsed := 0
    pixelFactor := STARTING_PIXELATION
    lastWrongGuess := none
    playedIds := []
    lossReason := none
    hintLevel := .NONE
    enableTimer := false
    timeLeft := 0
    score := (savedScore : ℚ) }

/-- One user- or timer-driven event of the running app, each guarded by
the status in which the UI exposes it. Network and randomness appear as
constructor parameters. -/
inductive Step : State → State → Prop
  | selectArtist (s : State) (a : SpotifyArtist) (items : List SpotifyAlbum) (r1 r2 : Nat)
      (gatewayError : Bool) (h : s.status = .MENU) :
      Step s (loadRound { s with currentArtist := some a, gameMode := .SPECIFIC, playedIds := [] }
        a [] s.difficulty items r1 r2 gatewayError)
  | randomStart (s : State) (a : SpotifyArtist) (items : List SpotifyAlbum) (r1 r2 : Nat)
      (gatewayError : Bool) (h : s.status = .MENU) :
      Step s (loadRound { s with currentArtist := some a, gameMode := .RANDOM, playedIds := [] }
        a [] s.difficulty items r1 r2 gatewayError)
  | randomStartFail (s : State) (h : s.status = .MENU) :
      Step s { s with error := some randomFailMsg, loading := false }
  | typeSearch (s : State) (t : String) (h : s.status = .MENU) :
      Step s { s with searchInput := t }
  | searchResults (s : State) (res : List SpotifyArtist) (h : s.status = .MENU) :
      Step s { s with artistCandidates := res,
                      error := if res = [] then some noArtistsMsg else none,
                      loading := false }
  | setDiff (s : State) (d : Difficulty) (h : s.status = .MENU) :
      Step s { s with difficulty := d }
  | toggleTimer (s : State) (h : s.status = .MENU) :
      Step s { s with enableTimer := !s.enableTimer }
  | typeGuess (s : State) (g : String) (h : s.status = .PLAYING) :
      Step s { s with guessInput := g }
  | submit (s : State) (h : s.status = .PLAYING) :
      Step s (submitGuess s)
  | skip (s : State) (h : s.status = .PLAYING) :
      Step s (handleSkip s)
  | hint (s : State) (h : s.status = .PLAYING) :
      Step s (handleHint s)
  | tick (s : State) (h : s.status = .PLAYING ∧ s.enableTimer = true ∧ 0 < s.timeLeft) :
      Step s { s with timeLeft := s.timeLeft - 1 }
  | timeUp (s : State) (h : s.status = .PLAYING ∧ s.enableTimer = true ∧ s.timeLeft = 0) :
      Step s (handleTimeUp s)
  | next (s : State) (a : SpotifyArtist) (items : List SpotifyAlbum) (r1 r2 : Nat)
      (gatewayError : Bool) (h : s.status = .WON ∨ s.status = .LOST) :
      Step s (nextRound s a items r1 r2 gatewayError)
  | nextRandomFail (s : State) (h : s.status = .WON ∨ s.status = .LOST) :
      Step s { s with error := some randomFailMsg, loading := false }
  | quitRequest (s : State) :
      Step s { s with showQuitConfirm := true }
  | quitCancel (s : State) :
      Step s { s with showQuitConfirm := false }
  | quit (s : State) :
      Step s (confirmQuit s)

/-- States the app can reach from a fresh mount with some persisted score. -/
def Reachable (s : State) : Prop :=
  ∃ savedScore : Nat, Relation.ReflTransGen Step (init savedScore) s

/-- The inductive invariant carried through every transition: an active
round (PLAYING, WON or LOST) has a target; while PLAYING the pixel
factor stays at least 4; on WON or LOST it is exactly 1. -/
def CoreInv (s : State) : Prop :=
  ((s.status = .PLAYING ∨ s.status = .WON ∨ s.status = .LOST) → s.targetAlbum ≠ none) ∧
  (s.status = .PLAYING → 4 ≤ s.pixelFactor) ∧
  ((s.status = .WON ∨ s.status = .LOST) → s.pixelFactor = 1)

/-- Concrete artist used by witnesses and counterexamples. -/
def demoArtist : SpotifyArtist := { id := "ar1", name := "The Beatles" }

/-- Concrete gateway album with a usable cover image. -/
def demoAlbum : SpotifyAlbum :=
  { id := "al1"
    name := "Abbey Road"
    images := [{ url := "http" }]
    release_date := "1969-09-26"
    spotifyUrl := "sp"
    album_type := .album }

/-- The state right after the app, freshly mounted, loads a round for
the demo artist with the one-album pool: a reachable PLAYING state. -/
def demoPlaying : State :=
  loadRound { init 0 with currentArtist := some demoArtist, gameMode := .SPECIFIC, playedIds := [] }
    demoArtist [] (init 0).difficulty [demoAlbum] 0 0 false

/-- The demo PLAYING state after the player confirms a quit. -/
def demoQuit : State := confirmQuit demoPlaying

/-- A PLAYING state whose hint level is maxed and whose score is ample. -/
def hintMaxState : State := { demoPlaying with hintLevel := .FIRST_WORD, score := 100 }

/-- A PLAYING state with 40 XP, below the 50 XP skip cost. -/
def skipPoorState : State := { demoPlaying with score := 40 }

/-- A won round in SPECIFIC mode whose only album is already played. -/
def demoWonSpecific : State := handleWin { demoPlaying with guessInput := "abbey road" }

/-- A blank-input PLAYING state for the no-op guess witness. -/
def blankGuessState : State := { demoPlaying with guessInput := "   " }

/-- First concrete normalizer operand from the spec. -/
def thrillerEdition : String := "Thriller (25th Anniversary Edition)"

/-- Second concrete normalizer operand from the spec. -/
def thrillerLower : String := "thriller"

/-- The canonical target title of the C1 scenario. -/
def abbeyTitle : String := "Abbey Road"

/-- The player's guess of the C1 scenario. -/
def abbeyGuess : String := "abbey road"

/-- The expected target record of the demo round. -/
def demoTarget : AlbumData :=
  { id := "al1"
    artistName := "The Beatles"
    albumName := "Abbey Road"
    coverUrl := "http"
    releaseDate := "1969-09-26"
    spotifyUrl := "sp"
    kind := .album }

/-- The demo PLAYING state with the scenario guess typed in. -/
def abbeyState : State := { demoPlaying with guessInput := "abbey road" }

/-- The demo PLAYING state with the timer enabled and 7 seconds left. -/
def timerState : State := { demoPlaying with enableTimer := true, timeLeft := 7 }

/-- The won demo round switched to RANDOM mode. -/
def demoWonRandom : State := { demoWonSpecific with gameMode := .RANDOM }

/-- C7: the normalizer lowercases, truncates at the first left
parenthesis, truncates at the first hyphen, and strips every
non-letter-non-digit character, in that order; consequently the
normalized forms of "Thriller (25th Anniversary Edition)" and
"thriller" coincide. -/
theorem normalizeString_pipeline_thriller :
    (∀ s : String,
      normalizeString s =
        jsStripNonAlnum (jsSplitHead '-' (jsSplitHead '(' (jsToLowerCase s.toList)))) ∧
    normalizeString thrillerEdition = normalizeString thrillerLower :=
  ⟨fun _ => rfl, by decide⟩

/-- C9: submitting a blank or whitespace-only guess, or one whose
normalized token is empty while the target's normalized token is not,
leaves the whole state unchanged. -/
theorem submitGuess_blank_noop (s : State) :
    (jsTrim s.guessInput = [] → submitGuess s = s) ∧
    (∀ t : AlbumData, s.targetAlbum = some t →
      normalizeString s.guessInput = [] → normalizeString t.albumName ≠ [] →
      submitGuess s = s) := by
  constructor
  · intro h
    unfold submitGuess
    cases hT : s.targetAlbum with
    | none => rfl
    | some t => simp [h]
  · intro t hT hg hn
    unfold submitGuess
    rw [hT]
    by_cases hb : jsTrim s.guessInput = []
    · simp [hb]
    · simp [hb, hg, hn]

/-- Witness for C9 at a concrete whitespace-only guess. -/
theorem submitGuess_blank_noop_witness :
    submitGuess blankGuessState = blankGuessState :=
  (submitGuess_blank_noop blankGuessState).1 (by decide)

/-- C6: spends clamp at zero and are atomic on failure — a skip below
50 XP or a hint below 25 XP only raises the insufficient-XP toast,
leaving the score, the status and every other field unchanged; with
enough XP the skip charges exactly 50 and loses with reason SKIP, and
the hint charges exactly 25. -/
theorem spend_clamped_and_atomic (s : State) :
    (0 ≤ s.score → 0 ≤ (handleSkip s).score ∧ 0 ≤ (handleHint s).score) ∧
    (s.score < 50 → handleSkip s = { s with toastMessage := some skipToast }) ∧
    (50 ≤ s.score → (handleSkip s).score = s.score - 50 ∧
      (handleSkip s).status = .LOST ∧ (handleSkip s).lossReason = some .SKIP) ∧
    (s.score < 25 → handleHint s = { s with toastMessage := some hintToast }) ∧
    (25 ≤ s.score → (handleHint s).score = s.score - 25) := by
  refine ⟨?_, ?_, ?_, ?_, ?_⟩
  · intro h0
    constructor
    · unfold handleSkip
      split
      · exact h0
      · exact le_max_left 0 _
    · unfold handleHint
      split
      · exact h0
      · cases hL : s.hintLevel <;> simp [hL]
  · intro h
    unfold handleSkip
    simp [h]
  · intro h
    have hn : ¬ s.score < 50 := not_lt.mpr h
    refine ⟨?_, ?_, ?_⟩ <;> simp [handleSkip, hn]
    linarith
  · intro h
    unfold handleHint
    simp [h]
  · intro h
    have hn : ¬ s.score < 25 := not_lt.mpr h
    unfold handleHint
    simp only [hn, if_false]
    cases hL : s.hintLevel <;> simp [hL, h]

/-- Witness for C6: with 40 XP the skip is rejected — only the toast is
set, the score stays 40 and the state stays PLAYING — and from 100 XP a
hint charges exactly 25. -/
theorem spend_clamped_and_atomic_witness :
    handleSkip skipPoorState = { skipPoorState with toastMessage := some skipToast } ∧
    (handleSkip skipPoorState).score = 40 ∧
    (handleSkip skipPoorState).status = .PLAYING ∧
    (handleHint hintMaxState).score = 75 := by
  have hs40 : skipPoorState.score = (40 : ℚ) := rfl
  have hs100 : hintMaxState.score = (100 : ℚ) := rfl
  have h1 := (spend_clamped_and_atomic skipPoorState).2.1 (by rw [hs40]; norm_num)
  have h2 := (spend_clamped_and_atomic hintMaxState).2.2.2.2 (by rw [hs100]; norm_num)
  refine ⟨h1, ?_, ?_, ?_⟩
  · rw [h1]; exact hs40
  · rw [h1]; rfl
  · rw [h2, hs100]; norm_num

/-- C2 counterexample: in a reachable-shaped PLAYING state with hint
level FIRST_WORD and 100 XP, invoking handleHint is not a no-op — the
score drops to 75 even though the hint level cannot advance. -/
theorem handleHint_firstWord_not_noop :
    hintMaxState.status = .PLAYING ∧
    hintMaxState.hintLevel = .FIRST_WORD ∧
    hintMaxState.score = 100 ∧
    (handleHint hintMaxState).score = 75 ∧
    handleHint hintMaxState ≠ hintMaxState := by
  have hs : hintMaxState.score = (100 : ℚ) := rfl
  have hn : ¬ hintMaxState.score < 25 := by rw [hs]; norm_num
  have hsc : (handleHint hintMaxState).score = 75 := by
    simp [handleHint, hn, show hintMaxState.hintLevel = HintLevel.FIRST_WORD from rfl]
    rw [hs]; norm_num
  refine ⟨rfl, rfl, hs, hsc, ?_⟩
  intro heq
  have := congrArg State.score heq
  rw [hsc, hs] at this
  norm_num at this

/-- C2 amended: requesting a hint at FIRST_WORD never advances the hint
level; with under 25 XP only the toast is set, while with 25 XP or more
the handler still deducts 25 XP, changing nothing else. The rendered
hint button is disabled at FIRST_WORD, so the click action itself is a
strict no-op. -/
theorem handleHint_firstWord_amended (s : State) (h : s.hintLevel = .FIRST_WORD) :
    (handleHint s).hintLevel = .FIRST_WORD ∧
    (s.score < 25 → handleHint s = { s with toastMessage := some hintToast }) ∧
    (25 ≤ s.score → handleHint s = { s with score := s.score - 25 }) ∧
    hintButton s = s := by
  refine ⟨?_, ?_, ?_, ?_⟩
  · by_cases hlt : s.score < 25 <;> simp [handleHint, h, hlt]
  · intro hlt
    simp [handleHint, hlt]
  · intro hge
    have hlt : ¬ s.score < 25 := not_lt.mpr hge
    simp [handleHint, h, hlt, hge]
  · unfold hintButton
    simp [h]

/-- Witness for C2's amended claim at the concrete maxed-hint state. -/
theorem handleHint_firstWord_amended_witness :
    (handleHint hintMaxState).hintLevel = .FIRST_WORD ∧
    hintButton hintMaxState = hintMaxState := by
  have h := handleHint_firstWord_amended hintMaxState rfl
  exact ⟨h.1, h.2.2.2⟩

/-- A wrong guess always consumes exactly one guess. -/
theorem handleWrongGuess_guessesUsed (s : State) :
    (handleWrongGuess s).guessesUsed = s.guessesUsed + 1 := by
  simp [handleWrongGuess, apply_ite State.guessesUsed]

/-- A non-terminal wrong guess does not change the status. -/
theorem handleWrongGuess_status_lt (s : State) (h : s.guessesUsed + 1 < MAX_GUESSES) :
    (handleWrongGuess s).status = s.status := by
  simp only [handleWrongGuess]
  rw [if_neg (by omega)]

/-- The MAX_GUESSES-th wrong guess loses with reason OUT_OF_GUESSES and
full reveal, whatever the timer configuration. -/
theorem handleWrongGuess_terminal (s : State) (h : MAX_GUESSES ≤ s.guessesUsed + 1) :
    (handleWrongGuess s).status = .LOST ∧
    (handleWrongGuess s).lossReason = some .OUT_OF_GUESSES ∧
    (handleWrongGuess s).pixelFactor = 1 := by
  simp only [handleWrongGuess]
  rw [if_pos h]
  exact ⟨rfl, rfl, rfl⟩

set_option maxHeartbeats 1000000

/-- C5: from a fresh round, the first three wrong guesses keep the game
in PLAYING and the fourth (MAX_GUESSES-th) transitions to LOST with
reason OUT_OF_GUESSES, regardless of the timer configuration. -/
theorem fourWrongGuesses_lost (s : State) (hst : s.status = .PLAYING)
    (hg : s.guessesUsed = 0) :
    (handleWrongGuess^[MAX_GUESSES] s).status = .LOST ∧
    (handleWrongGuess^[MAX_GUESSES] s).lossReason = some .OUT_OF_GUESSES ∧
    ∀ k, k < MAX_GUESSES → (handleWrongGuess^[k] s).status = .PLAYING := by
  have g1 : (handleWrongGuess s).guessesUsed = 1 := by
    rw [handleWrongGuess_guessesUsed, hg]
  have g2 : (handleWrongGuess (handleWrongGuess s)).guessesUsed = 2 := by
    rw [handleWrongGuess_guessesUsed, g1]
  have g3 : (handleWrongGuess (handleWrongGuess (handleWrongGuess s))).guessesUsed = 3 := by
    rw [handleWrongGuess_guessesUsed, g2]
  have st1 : (handleWrongGuess s).status = .PLAYING := by
    rw [handleWrongGuess_status_lt s (by rw [hg]; decide), hst]
  have st2 : (handleWrongGuess (handleWrongGuess s)).status = .PLAYING := by
    rw [handleWrongGuess_status_lt _ (by rw [g1]; decide), st1]
  have st3 : (handleWrongGuess (handleWrongGuess (handleWrongGuess s))).status = .PLAYING := by
    rw [handleWrongGuess_status_lt _ (by rw [g2]; decide), st2]
  have hterm := handleWrongGuess_terminal
    (handleWrongGuess (handleWrongGuess (handleWrongGuess s))) (by rw [g3]; decide)
  refine ⟨hterm.1, hterm.2.1, ?_⟩
  intro k hk
  have hk4 : k < 4 := hk
  interval_cases k
  · exact hst
  · exact st1
  · exact st2
  · exact st3

/-- Witness for C5 at the concrete freshly loaded round. -/
theorem fourWrongGuesses_lost_witness :
    (handleWrongGuess^[MAX_GUESSES] demoPlaying).status = .LOST ∧
    (handleWrongGuess^[MAX_GUESSES] demoPlaying).lossReason = some .OUT_OF_GUESSES ∧
    ∀ k, k < MAX_GUESSES → (handleWrongGuess^[k] demoPlaying).status = .PLAYING :=
  fourWrongGuesses_lost demoPlaying rfl rfl

/-- C1: at difficulty MEDIUM with the timer disabled, target name
"Abbey Road" and no guesses used, submitting "abbey road" wins, leaves
guesses-used at 0, and adds exactly 1500 to an integer score — base
award max(100, 1000 - 200*0) = 1000 scaled by the MEDIUM multiplier
3/2 and floored. -/
theorem mediumWin1500 (s : State) (t : AlbumData) (n : ℤ)
    (_hst : s.status = .PLAYING) (hd : s.difficulty = .MEDIUM)
    (htm : s.enableTimer = false) (hg : s.guessesUsed = 0)
    (hsc : s.score = (n : ℚ)) (hT : s.targetAlbum = some t)
    (hname : t.albumName = abbeyTitle) (hin : s.guessInput = abbeyGuess) :
    (submitGuess s).status = .WON ∧ (submitGuess s).guessesUsed = 0 ∧
    (submitGuess s).score = s.score + 1500 := by
  have hb : ¬ (jsTrim abbeyGuess = []) := by decide
  have hteq : normalizeString abbeyGuess = normalizeString abbeyTitle := by decide
  have hne : ¬ (normalizeString abbeyGuess = [] ∧ normalizeString abbeyTitle ≠ []) := by decide
  have hsub : submitGuess s = handleWin s := by
    simp only [submitGuess, hT, hin, hname]
    rw [if_neg hb, if_neg hne, if_pos hteq]
  rw [hsub]
  refine ⟨rfl, ?_, ?_⟩
  · show s.guessesUsed = 0
    exact hg
  · show ((Int.floor (s.score + _ * difficultyMulti s.difficulty) : ℤ) : ℚ) = s.score + 1500
    rw [hd, hg, htm, hsc]
    norm_num [difficultyMulti]

/-- Witness for C1 at the concrete demo round with score 0. -/
theorem mediumWin1500_witness :
    (submitGuess abbeyState).status = .WON ∧ (submitGuess abbeyState).guessesUsed = 0 ∧
    (submitGuess abbeyState).score = abbeyState.score + 1500 :=
  mediumWin1500 abbeyState demoTarget 0 rfl rfl rfl rfl
    (show (0 : ℚ) = ((0 : ℤ) : ℚ) by norm_num) rfl rfl rfl

/-- C10: when the timer is enabled with time remaining, the win handler
adds the time bonus to the base award before applying the difficulty
multiplier, so relative to the same win with the timer disabled the
score gains exactly timeLeft * 10 * multiplier — on MEDIUM that is
15 * timeLeft, not the unscaled 10 * timeLeft. -/
theorem timeBonus_before_multiplier (s : State) (n : ℤ)
    (hsc : s.score = (n : ℚ)) (ht : s.enableTimer = true) (hp : 0 < s.timeLeft) :
    (handleWin s).score =
      (handleWin { s with enableTimer := false }).score
        + (s.timeLeft : ℚ) * 10 * difficultyMulti s.difficulty ∧
    (s.difficulty = .MEDIUM →
      (handleWin s).score =
        (handleWin { s with enableTimer := false }).score + 15 * (s.timeLeft : ℚ)) := by
  obtain ⟨k, hk⟩ : ∃ k : ℤ, max 100 (1000 - (s.guessesUsed : ℤ) * 200) = 2 * k := by
    rcases max_choice (100 : ℤ) (1000 - (s.guessesUsed : ℤ) * 200) with h | h
    · exact ⟨50, by rw [h]; norm_num⟩
    · exact ⟨500 - (s.guessesUsed : ℤ) * 100, by rw [h]; ring⟩
  have key : (handleWin s).score =
      (handleWin { s with enableTimer := false }).score
        + (s.timeLeft : ℚ) * 10 * difficultyMulti s.difficulty := by
    simp only [handleWin]
    rw [if_pos ⟨ht, hp⟩, if_neg (by simp)]
    rw [hk, hsc]
    cases hdiff : s.difficulty <;> simp only [difficultyMulti]
    · have hA : (n : ℚ) + ((2 * k + (s.timeLeft : ℤ) * 10 : ℤ) : ℚ) * 1
          = ((n + 2 * k + 10 * (s.timeLeft : ℤ) : ℤ) : ℚ) := by
        push_cast; ring
      have hB : (n : ℚ) + ((2 * k : ℤ) : ℚ) * 1 = ((n + 2 * k : ℤ) : ℚ) := by push_cast; ring
      rw [hA, hB, Int.floor_intCast, Int.floor_intCast]
      push_cast; ring
    · have hA : (n : ℚ) + ((2 * k + (s.timeLeft : ℤ) * 10 : ℤ) : ℚ) * (3 / 2)
          = ((n + 3 * k + 15 * (s.timeLeft : ℤ) : ℤ) : ℚ) := by
        push_cast; ring
      have hB : (n : ℚ) + ((2 * k : ℤ) : ℚ) * (3 / 2) = ((n + 3 * k : ℤ) : ℚ) := by
        push_cast; ring
      rw [hA, hB, Int.floor_intCast, Int.floor_intCast]
      push_cast; ring
    · have hA : (n : ℚ) + ((2 * k + (s.timeLeft : ℤ) * 10 : ℤ) : ℚ) * 2
          = ((n + 4 * k + 20 * (s.timeLeft : ℤ) : ℤ) : ℚ) := by
        push_cast; ring
      have hB : (n : ℚ) + ((2 * k : ℤ) : ℚ) * 2 = ((n + 4 * k : ℤ) : ℚ) := by push_cast; ring
      rw [hA, hB, Int.floor_intCast, Int.floor_intCast]
      push_cast; ring
  refine ⟨key, fun hdm => ?_⟩
  rw [key, hdm]
  simp only [difficultyMulti]
  ring

/-- Witness for C10 at the demo round with the timer on and 7 seconds
left: the MEDIUM effective bonus is 105, not 70. -/
theorem timeBonus_before_multiplier_witness :
    (handleWin timerState).score =
      (handleWin { timerState with enableTimer := false }).score
        + (timerState.timeLeft : ℚ) * 10 * difficultyMulti timerState.difficulty ∧
    (handleWin timerState).score =
      (handleWin { timerState with enableTimer := false }).score + 15 * (timerState.timeLeft : ℚ) := by
  have h := timeBonus_before_multiplier timerState 0
    (show (0 : ℚ) = ((0 : ℤ) : ℚ) by norm_num) rfl (by decide)
  exact ⟨h.1, h.2 rfl⟩

/-- C8 counterexample: a round load finding no items at all while the
game mode is SPECIFIC transitions to ALL_CLEARED, not to MENU, and sets
no error message — the claim's "forced to MENU in every game mode"
fails for SPECIFIC (the code cannot tell an empty pool from an
exhausted one). -/
theorem loadRound_emptyPool_specific_allCleared :
    demoWonSpecific.gameMode = .SPECIFIC ∧
    (loadRound demoWonSpecific demoArtist demoWonSpecific.playedIds .MEDIUM [] 0 0 false).status
      = .ALL_CLEARED ∧
    (loadRound demoWonSpecific demoArtist demoWonSpecific.playedIds .MEDIUM [] 0 0 false).status
      ≠ .MENU ∧
    (loadRound demoWonSpecific demoArtist demoWonSpecific.playedIds .MEDIUM [] 0 0 false).error
      = none := by
  refine ⟨rfl, rfl, ?_, rfl⟩
  decide

/-- C8 amended: when the gateway yields no items at all, a round load in
RANDOM mode forces MENU with an error message, leaving every round field
except the (cleared) played set untouched; in SPECIFIC mode the same
situation instead transitions to ALL_CLEARED with no error and no other
change. -/
theorem loadRound_emptyPool (s : State) (a : SpotifyArtist) (played : List String)
    (diff : Difficulty) (r1 r2 : Nat) :
    (s.gameMode = .RANDOM →
      loadRound s a played diff [] r1 r2 false =
        { s with loading := false, error := some noMusicMsg, artistCandidates := [],
                 lossReason := none, playedIds := [], status := .MENU }) ∧
    (s.gameMode = .SPECIFIC →
      loadRound s a played diff [] r1 r2 false =
        { s with loading := false, error := none, artistCandidates := [],
                 lossReason := none, status := .ALL_CLEARED }) := by
  constructor <;> intro h <;> simp [loadRound, getRandomAlbumForArtist, h]

/-- Witness for C8's amended claim at the concrete RANDOM-mode state. -/
theorem loadRound_emptyPool_witness :
    loadRound demoWonRandom demoArtist demoWonRandom.playedIds .MEDIUM [] 0 0 false =
      { demoWonRandom with
          loading := false
          error := some noMusicMsg
          artistCandidates := []
          lossReason := none
          playedIds := []
          status := .MENU } :=
  (loadRound_emptyPool demoWonRandom demoArtist demoWonRandom.playedIds .MEDIUM 0 0).1 rfl

/-- The win handler preserves the target and the guess count, enters
WON and fully reveals. -/
theorem handleWin_fields (s : State) :
    (handleWin s).targetAlbum = s.targetAlbum ∧ (handleWin s).status = .WON ∧
    (handleWin s).pixelFactor = 1 ∧ (handleWin s).guessesUsed = s.guessesUsed :=
  ⟨rfl, rfl, rfl, rfl⟩

/-- A wrong guess never changes the target. -/
theorem handleWrongGuess_targetAlbum (s : State) :
    (handleWrongGuess s).targetAlbum = s.targetAlbum := by
  simp [handleWrongGuess, apply_ite State.targetAlbum]

/-- The pixel factor after a non-terminal wrong guess: one step of
floor(STARTING_PIXELATION / MAX_GUESSES) + 1, floored at 4. -/
theorem handleWrongGuess_pixel_lt (s : State) (h : s.guessesUsed + 1 < MAX_GUESSES) :
    (handleWrongGuess s).pixelFactor
      = max 4 (s.pixelFactor - STARTING_PIXELATION / MAX_GUESSES - 1) := by
  simp only [handleWrongGuess]
  rw [if_neg (by omega)]

/-- A skip either only raises the toast or loses with full reveal. -/
theorem handleSkip_cases (s : State) :
    handleSkip s = { s with toastMessage := some skipToast } ∨
    ((handleSkip s).status = .LOST ∧ (handleSkip s).pixelFactor = 1 ∧
      (handleSkip s).targetAlbum = s.targetAlbum) := by
  unfold handleSkip
  split
  · exact Or.inl rfl
  · exact Or.inr ⟨rfl, rfl, rfl⟩

/-- A hint request never changes the status, pixel factor or target. -/
theorem handleHint_fields (s : State) :
    (handleHint s).status = s.status ∧ (handleHint s).pixelFactor = s.pixelFactor ∧
    (handleHint s).targetAlbum = s.targetAlbum := by
  unfold handleHint
  split
  · exact ⟨rfl, rfl, rfl⟩
  · cases hL : s.hintLevel <;> exact ⟨rfl, rfl, rfl⟩

/-- Outcomes of the load tail: MENU keeping target and pixel factor, or
PLAYING with a fresh target at STARTING_PIXELATION. -/
theorem finishLoad_cases (s : State) (a : SpotifyArtist) (d : Difficulty) (al : SpotifyAlbum) :
    ((finishLoad s a d al).status = .MENU ∧ (finishLoad s a d al).targetAlbum = s.targetAlbum
      ∧ (finishLoad s a d al).pixelFactor = s.pixelFactor)
    ∨ ((finishLoad s a d al).status = .PLAYING ∧ (finishLoad s a d al).targetAlbum ≠ none
      ∧ (finishLoad s a d al).pixelFactor = STARTING_PIXELATION) := by
  unfold finishLoad
  cases heq : al.images.head? with
  | none => exact Or.inl ⟨rfl, rfl, rfl⟩
  | some img =>
    dsimp only
    by_cases h : img.url = ""
    · rw [if_pos h]
      exact Or.inl ⟨rfl, rfl, rfl⟩
    · rw [if_neg h]
      exact Or.inr ⟨rfl, by simp, rfl⟩

/-- Outcomes of a round load: failure (MENU) or exhaustion
(ALL_CLEARED) keep the previous target and pixel factor; success enters
PLAYING with a target and STARTING_PIXELATION. -/
theorem loadRound_cases (s : State) (a : SpotifyArtist) (cp : List String) (d : Difficulty)
    (items : List SpotifyAlbum) (r1 r2 : Nat) (ge : Bool) :
    (((loadRound s a cp d items r1 r2 ge).status = .MENU
        ∨ (loadRound s a cp d items r1 r2 ge).status = .ALL_CLEARED)
      ∧ (loadRound s a cp d items r1 r2 ge).targetAlbum = s.targetAlbum
      ∧ (loadRound s a cp d items r1 r2 ge).pixelFactor = s.pixelFactor)
    ∨ ((loadRound s a cp d items r1 r2 ge).status = .PLAYING
      ∧ (loadRound s a cp d items r1 r2 ge).targetAlbum ≠ none
      ∧ (loadRound s a cp d items r1 r2 ge).pixelFactor = STARTING_PIXELATION) := by
  unfold loadRound
  cases ge with
  | true => exact Or.inl ⟨Or.inl rfl, rfl, rfl⟩
  | false =>
    simp only [Bool.false_eq_true, if_false]
    cases h1 : getRandomAlbumForArtist items cp r1 with
    | some album =>
      rcases finishLoad_cases
          { s with loading := true, error := none, artistCandidates := [], lossReason := none }
          a d album with ⟨h, ht, hp⟩ | ⟨h, ht, hp⟩
      · exact Or.inl ⟨Or.inl h, ht, hp⟩
      · exact Or.inr ⟨h, ht, hp⟩
    | none =>
      by_cases hm : s.gameMode = GameMode.SPECIFIC
      · simp only [hm]
        simp
      · rw [if_neg hm]
        cases h2 : getRandomAlbumForArtist items [] r2 with
        | some album =>
          rcases finishLoad_cases
              { s with loading := true, error := none, artistCandidates := [],
                       lossReason := none, playedIds := [] }
              a d album with ⟨h, ht, hp⟩ | ⟨h, ht, hp⟩
          · exact Or.inl ⟨Or.inl h, ht, hp⟩
          · exact Or.inr ⟨h, ht, hp⟩
        | none => exact Or.inl ⟨Or.inl rfl, rfl, rfl⟩

/-- Any state sitting in MENU or ALL_CLEARED satisfies the invariant. -/
theorem coreInv_of_menu {s2 : State} (h : s2.status = .MENU ∨ s2.status = .ALL_CLEARED) :
    CoreInv s2 := by
  unfold CoreInv
  rcases h with h | h <;> rw [h] <;>
    exact ⟨by intro hc; simp at hc, by intro hc; simp at hc, by intro hc; simp at hc⟩

/-- A freshly loaded PLAYING state satisfies the invariant. -/
theorem coreInv_of_playing_load {s2 : State} (h : s2.status = .PLAYING)
    (ht : s2.targetAlbum ≠ none) (hp : s2.pixelFactor = STARTING_PIXELATION) : CoreInv s2 := by
  refine ⟨fun _ => ht, fun _ => by rw [hp]; norm_num [STARTING_PIXELATION], ?_⟩
  intro hc
  rw [h] at hc
  simp at hc

/-- A guess submission is a no-op, a win, or a wrong guess. -/
theorem submitGuess_cases (s : State) :
    submitGuess s = s ∨ submitGuess s = handleWin s ∨ submitGuess s = handleWrongGuess s := by
  unfold submitGuess
  cases s.targetAlbum with
  | none => exact Or.inl rfl
  | some t =>
    dsimp only
    by_cases h1 : jsTrim s.guessInput = []
    · rw [if_pos h1]; exact Or.inl rfl
    · rw [if_neg h1]
      by_cases h2 : normalizeString s.guessInput = [] ∧ normalizeString t.albumName ≠ []
      · rw [if_pos h2]; exact Or.inl rfl
      · rw [if_neg h2]
        by_cases h3 : normalizeString s.guessInput = normalizeString t.albumName
        · rw [if_pos h3]; exact Or.inr (Or.inl rfl)
        · rw [if_neg h3]; exact Or.inr (Or.inr rfl)

/-- Every app event preserves the invariant. -/
theorem step_preserves_coreInv {s s2 : State} (hstep : Step s s2) (ih : CoreInv s) :
    CoreInv s2 := by
  obtain ⟨ihT, ihP, ihW⟩ := ih
  cases hstep with
  | selectArtist a items r1 r2 ge h =>
      rcases loadRound_cases { s with currentArtist := some a, gameMode := .SPECIFIC, playedIds := [] }
          a [] s.difficulty items r1 r2 ge with ⟨hst, ht, hp⟩ | ⟨hst, ht, hp⟩
      · exact coreInv_of_menu hst
      · exact coreInv_of_playing_load hst ht hp
  | randomStart a items r1 r2 ge h =>
      rcases loadRound_cases { s with currentArtist := some a, gameMode := .RANDOM, playedIds := [] }
          a [] s.difficulty items r1 r2 ge with ⟨hst, ht, hp⟩ | ⟨hst, ht, hp⟩
      · exact coreInv_of_menu hst
      · exact coreInv_of_playing_load hst ht hp
  | randomStartFail h => exact ⟨ihT, ihP, ihW⟩
  | typeSearch t h => exact ⟨ihT, ihP, ihW⟩
  | searchResults res h => exact ⟨ihT, ihP, ihW⟩
  | setDiff d h => exact ⟨ihT, ihP, ihW⟩
  | toggleTimer h => exact ⟨ihT, ihP, ihW⟩
  | typeGuess g h => exact ⟨ihT, ihP, ihW⟩
  | tick h => exact ⟨ihT, ihP, ihW⟩
  | quitRequest => exact ⟨ihT, ihP, ihW⟩
  | quitCancel => exact ⟨ihT, ihP, ihW⟩
  | nextRandomFail h => exact ⟨ihT, ihP, ihW⟩
  | quit => exact coreInv_of_menu (Or.inl rfl)
  | timeUp h =>
      refine ⟨fun _ => ihT (Or.inl h.1), ?_, fun _ => rfl⟩
      intro hc
      simp [handleTimeUp] at hc
  | skip h =>
      rcases handleSkip_cases s with heq | ⟨hst, hpf, htg⟩
      · rw [heq]; exact ⟨ihT, ihP, ihW⟩
      · refine ⟨fun _ => by rw [htg]; exact ihT (Or.inl h), ?_, fun _ => hpf⟩
        intro hc
        rw [hst] at hc
        simp at hc
  | hint h =>
      obtain ⟨h1, h2, h3⟩ := handleHint_fields s
      refine ⟨?_, ?_, ?_⟩
      · intro hc; rw [h3]; rw [h1] at hc; exact ihT hc
      · intro hc; rw [h2]; rw [h1] at hc; exact ihP hc
      · intro hc; rw [h2]; rw [h1] at hc; exact ihW hc
  | submit h =>
      rcases submitGuess_cases s with heq | heq | heq <;> rw [heq]
      · exact ⟨ihT, ihP, ihW⟩
      · obtain ⟨h1, h2, h3, _⟩ := handleWin_fields s
        refine ⟨fun _ => by rw [h1]; exact ihT (Or.inl h), ?_, fun _ => h3⟩
        intro hc
        rw [h2] at hc
        simp at hc
      · by_cases hterm : MAX_GUESSES ≤ s.guessesUsed + 1
        · obtain ⟨hst, hlr, hpf⟩ := handleWrongGuess_terminal s hterm
          refine ⟨fun _ => by rw [handleWrongGuess_targetAlbum]; exact ihT (Or.inl h), ?_,
            fun _ => hpf⟩
          intro hc
          rw [hst] at hc
          simp at hc
        · have hlt : s.guessesUsed + 1 < MAX_GUESSES := by omega
          have hss := handleWrongGuess_status_lt s hlt
          refine ⟨fun _ => by rw [handleWrongGuess_targetAlbum]; exact ihT (Or.inl h), ?_, ?_⟩
          · intro _
            rw [handleWrongGuess_pixel_lt s hlt]
            exact le_max_left 4 _
          · intro hc
            rw [hss, h] at hc
            simp at hc
  | next a items r1 r2 ge h =>
      unfold nextRound
      cases hgm : s.gameMode with
      | RANDOM =>
          dsimp only
          rcases loadRound_cases
              { s with gameMode := GameMode.RANDOM, currentArtist := some a, playedIds := [] }
              a [] s.difficulty items r1 r2 ge with ⟨hst, ht, hp⟩ | ⟨hst, ht, hp⟩
          · exact coreInv_of_menu hst
          · exact coreInv_of_playing_load hst ht hp
      | SPECIFIC =>
          dsimp only
          cases hca : s.currentArtist with
          | some ar =>
              dsimp only
              rcases loadRound_cases s ar s.playedIds s.difficulty items r1 r2 ge
                with ⟨hst, ht, hp⟩ | ⟨hst, ht, hp⟩
              · exact coreInv_of_menu hst
              · exact coreInv_of_playing_load hst ht hp
          | none => exact coreInv_of_menu (Or.inl rfl)

/-- The freshly mounted app satisfies the invariant. -/
theorem coreInv_init (xp : Nat) : CoreInv (init xp) :=
  coreInv_of_menu (Or.inl rfl)

/-- Every reachable state satisfies the invariant. -/
theorem reachable_coreInv (s : State) (h : Reachable s) : CoreInv s := by
  obtain ⟨xp, hr⟩ := h
  induction hr with
  | refl => exact coreInv_init xp
  | tail hr hstep ih => exact step_preserves_coreInv hstep ih

/-- The demo PLAYING state is reachable: one artist-selection event. -/
theorem demoPlaying_reachable : Reachable demoPlaying :=
  ⟨0, Relation.ReflTransGen.single (Step.selectArtist (init 0) demoArtist [demoAlbum] 0 0 false rfl)⟩

/-- C3 counterexample: quitting the demo round to the menu reaches a
state whose status is MENU while the target item is still non-null,
because confirmQuit never clears the target — the claimed iff fails in
the null-implies-inactive direction. -/
theorem menu_retains_target :
    Reachable demoQuit ∧ demoQuit.status = .MENU ∧ demoQuit.targetAlbum ≠ none := by
  refine ⟨⟨0, Relation.ReflTransGen.tail (Relation.ReflTransGen.single
      (Step.selectArtist (init 0) demoArtist [demoAlbum] 0 0 false rfl))
      (Step.quit demoPlaying)⟩, rfl, by decide⟩

/-- C3 amended: in every reachable state, PLAYING, WON or LOST implies
the target item is non-null; the converse direction fails because
quit-to-menu and post-round load failures keep the stale target. -/
theorem target_nonnull_of_active (s : State) (h : Reachable s)
    (hst : s.status = .PLAYING ∨ s.status = .WON ∨ s.status = .LOST) :
    s.targetAlbum ≠ none :=
  (reachable_coreInv s h).1 hst

/-- Witness for C3's amended claim at the reachable demo round. -/
theorem target_nonnull_of_active_witness : demoPlaying.targetAlbum ≠ none :=
  target_nonnull_of_active demoPlaying demoPlaying_reachable (Or.inl rfl)

/-- C4: in every reachable PLAYING state the pixel factor is not 1, and
a non-terminal wrong guess moves it to
max 4 (previous - floor(STARTING_PIXELATION / MAX_GUESSES) - 1) — a
value above 1 and never above the previous one; in every reachable WON
or LOST state the pixel factor is exactly 1. -/
theorem pixelation_schedule (s : State) (h : Reachable s) :
    (s.status = .PLAYING →
      s.pixelFactor ≠ 1 ∧
      (s.guessesUsed + 1 < MAX_GUESSES →
        (handleWrongGuess s).pixelFactor
            = max 4 (s.pixelFactor - STARTING_PIXELATION / MAX_GUESSES - 1) ∧
        1 < (handleWrongGuess s).pixelFactor ∧
        (handleWrongGuess s).pixelFactor ≤ s.pixelFactor)) ∧
    ((s.status = .WON ∨ s.status = .LOST) → s.pixelFactor = 1) := by
  obtain ⟨ihT, ihP, ihW⟩ := reachable_coreInv s h
  refine ⟨?_, ihW⟩
  intro hst
  have h4 := ihP hst
  refine ⟨by omega, ?_⟩
  intro hlt
  have he := handleWrongGuess_pixel_lt s hlt
  refine ⟨he, ?_, ?_⟩
  · rw [he]
    have := le_max_left 4 (s.pixelFactor - STARTING_PIXELATION / MAX_GUESSES - 1)
    omega
  · rw [he]
    exact max_le h4 (le_trans (Nat.sub_le _ _) (Nat.sub_le _ _))

/-- Witness for C4 at the reachable demo round with no guesses used. -/
theorem pixelation_schedule_witness :
    demoPlaying.pixelFactor ≠ 1 ∧
    (handleWrongGuess demoPlaying).pixelFactor
      = max 4 (demoPlaying.pixelFactor - STARTING_PIXELATION / MAX_GUESSES - 1) ∧
    1 < (handleWrongGuess demoPlaying).pixelFactor ∧
    (handleWrongGuess demoPlaying).pixelFactor ≤ demoPlaying.pixelFactor := by
  have h := (pixelation_schedule demoPlaying demoPlaying_reachable).1 rfl
  exact ⟨h.1, h.2 (by decide)⟩

end PixelCover
